import Mathlib

/-!
Shallow embedding of the recommendation resolution pipeline of the
recommend-me-something backend (FastAPI + SQLAlchemy + three external APIs).

Python strings are modelled as lists of characters (`PyStr`), JSON-like
python values as `JVal`, raised python exceptions as `Except PyErr`.
Network calls are modelled by passing the outcome of the call (either a
transport-level failure or the parsed JSON body) as an explicit argument.
The defensive string normalisations, the exception taxonomy and the
per-exception-class `except` clauses are translated clause by clause from
`src/app/services/openai_service.py`, `book_service.py`, `movie_service.py`
and the routers `src/app/routers/books.py`, `src/app/routers/movies.py`.
-/

namespace RecBackend

/-- Python strings, modelled as their list of characters (code points). -/
abbrev PyStr := List Char

/-- The apostrophe character (written via its code point). -/
def apos : Char := Char.ofNat 39

/-- The double-quote character (written via its code point). -/
def dquote : Char := Char.ofNat 34

/-- Whitespace characters removed by python `str.strip()` (ASCII subset). -/
def pyIsSpace (c : Char) : Bool :=
  c = ' ' || c = '\t' || c = '\n' || c = '\r' || c = Char.ofNat 11 || c = Char.ofNat 12

/-- Embedding of python `str.strip()`: drop leading and trailing whitespace. -/
def pyStrip (s : PyStr) : PyStr :=
  ((s.dropWhile pyIsSpace).reverse.dropWhile pyIsSpace).reverse

/-- Embedding of python `str.lower()` (ASCII case folding). -/
def pyLower (s : PyStr) : PyStr := s.map Char.toLower

/-- Embedding of python `str.split(sep)` for a one-character separator:
splitting the empty string yields one empty part. -/
def pySplit (sep : Char) : PyStr → List PyStr
  | [] => [[]]
  | c :: cs =>
    if c = sep then [] :: pySplit sep cs
    else
      match pySplit sep cs with
      | r :: rs => (c :: r) :: rs
      | [] => [[c]]

/-- Embedding of python `str.replace("'s", "s")`: left-to-right,
non-overlapping replacement of the two-character pattern. -/
def replaceAposS : PyStr → PyStr
  | [] => []
  | [c] => [c]
  | c1 :: c2 :: cs =>
    if c1 = apos ∧ c2 = 's' then 's' :: replaceAposS cs
    else c1 :: replaceAposS (c2 :: cs)

/-- Embedding of python `str.replace('"', "")`: removes every double quote. -/
def removeDQuotes (s : PyStr) : PyStr := s.filter (fun c => c ≠ dquote)

/-- JSON-like python values: what `response.json()` and `eval` can produce
in the paths this pipeline exercises. Dictionary keys are strings, as in
every JSON payload. -/
inductive JVal where
  | null
  | bool (b : Bool)
  | num (n : Int)
  | str (s : PyStr)
  | list (xs : List JVal)
  | dict (es : List (PyStr × JVal))

/-- Raised python exceptions, restricted to the classes this pipeline
raises or catches. `requestException` stands for `requests.RequestException`
(timeouts, transport errors, `raise_for_status`), the last four model the
application's own taxonomy from `src/app/exceptions.py`. -/
inductive PyErr where
  | keyError
  | indexError
  | typeError
  | attributeError
  | integrityError
  | syntaxError
  | valueError
  | requestException (msg : String)
  | externalAPIError (service : String) (msg : PyStr)
  | invalidQueryError (msg : String)
  | rateLimitError (msg : String)
deriving DecidableEq, Repr

/-- Python truthiness of a `JVal` (`if x:`). -/
def truthy : JVal → Bool
  | .null => false
  | .bool b => b
  | .num n => n != 0
  | .str s => !s.isEmpty
  | .list xs => !xs.isEmpty
  | .dict es => !es.isEmpty

/-- Python `x == n` against an integer literal: numbers compare by value,
booleans coerce to 0/1, every other value is unequal. -/
def pyEqInt (v : JVal) (n : Int) : Bool :=
  match v with
  | .num m => m == n
  | .bool b => (if b then (1 : Int) else 0) == n
  | _ => false

/-- First value bound to a key in a python dict (keys are unique, but the
association-list form keeps the embedding total). -/
def dictFind (es : List (PyStr × JVal)) (k : PyStr) : Option JVal :=
  (es.find? (fun e => e.1 == k)).map (fun e => e.2)

/-- Python subscript `v[k]` with a string key: `KeyError` on a dict missing
the key, `TypeError` on any non-dict value. -/
def getItemS : JVal → PyStr → Except PyErr JVal
  | .dict es, k =>
    match dictFind es k with
    | some v => .ok v
    | none => .error .keyError
  | _, _ => .error .typeError

/-- Python subscript `v[i]` with a non-negative integer index: lists and
strings index, out of range is `IndexError`, an integer key on a
string-keyed dict is `KeyError`, everything else `TypeError`. -/
def getItemI : JVal → Nat → Except PyErr JVal
  | .list xs, i =>
    match xs.get? i with
    | some v => .ok v
    | none => .error .indexError
  | .str s, i =>
    match s.get? i with
    | some c => .ok (.str [c])
    | none => .error .indexError
  | .dict _, _ => .error .keyError
  | _, _ => .error .typeError

/-- Python `v.get(k, dflt)`: `AttributeError` when `v` is not a dict. -/
def dictGetD (v : JVal) (k : PyStr) (dflt : JVal) : Except PyErr JVal :=
  match v with
  | .dict es => .ok ((dictFind es k).getD dflt)
  | _ => .error .attributeError

/-- Python `v[k] = x` on a dict: updates the value in place when the key
exists, appends otherwise (insertion order); `TypeError` on non-dicts. -/
def dictSet : List (PyStr × JVal) → PyStr → JVal → List (PyStr × JVal)
  | [], k, x => [(k, x)]
  | (k0, v0) :: rest, k, x =>
    if k0 == k then (k0, x) :: rest else (k0, v0) :: dictSet rest k x

/-- Python item assignment `v[k] = x` for a string key. -/
def setItemS : JVal → PyStr → JVal → Except PyErr JVal
  | .dict es, k, x => .ok (.dict (dictSet es k x))
  | _, _, _ => .error .typeError

/-- Python iteration `for x in v`: lists yield elements, strings their
characters, dicts their keys; numbers, booleans and None are not iterable. -/
def pyIter : JVal → Except PyErr (List JVal)
  | .list xs => .ok xs
  | .str s => .ok (s.map (fun c => .str [c]))
  | .dict es => .ok (es.map (fun e => .str e.1))
  | _ => .error .typeError

/-- Comma-separated concatenation, as inside a python list repr. -/
def joinCommaSep : List PyStr → PyStr
  | [] => []
  | [s] => s
  | s :: rest => s ++ (',' :: ' ' :: joinCommaSep rest)

mutual
/-- Embedding of python `repr()` on `JVal` (string escaping inside reprs is
not reproduced; the claims never evaluate it on strings needing escapes). -/
def pyRepr : JVal → PyStr
  | .null => "None".data
  | .bool true => "True".data
  | .bool false => "False".data
  | .num n => (toString n).data
  | .str s => apos :: (s ++ [apos])
  | .list xs => '[' :: (joinCommaSep (pyReprList xs) ++ [']'])
  | .dict es => Char.ofNat 123 :: (joinCommaSep (pyReprDict es) ++ [Char.ofNat 125])
termination_by structural v => v

/-- Reprs of the elements of a python list. -/
def pyReprList : List JVal → List PyStr
  | [] => []
  | x :: xs => pyRepr x :: pyReprList xs
termination_by structural l => l

/-- Reprs of the entries of a python dict. -/
def pyReprDict : List (PyStr × JVal) → List PyStr
  | [] => []
  | (k, v) :: es => ((apos :: (k ++ [apos])) ++ (':' :: ' ' :: pyRepr v)) :: pyReprDict es
termination_by structural l => l
end

deriving instance DecidableEq for Except

/-- Embedding of python `str()` on a `JVal` (as used by f-strings and the
`[str(title) for title in titles]` coercions). -/
def pyStrVal : JVal → PyStr
  | .str s => s
  | v => pyRepr v

/-! ### Completion client (`src/app/services/openai_service.py`)

The four suggest operations are embedded from the point where
`_create_chat_completion` has either raised (`RateLimitExceededError` or
`ExternalAPIError`, its only failure kinds) or returned the stripped
response text; that outcome is the `resp` argument. -/

/-- Shared tail of the four suggest operations:
`except (RateLimitExceededError, ExternalAPIError): raise` followed by
`except Exception: raise InvalidQueryError(msg)` — every other exception
raised inside the `try` body, including the `InvalidQueryError`s raised by
the parsing code itself, is replaced by `InvalidQueryError(msg)`. -/
def wrapSuggest {α : Type} (msg : String) : Except PyErr α → Except PyErr α
  | .ok v => .ok v
  | .error (.rateLimitError m) => .error (.rateLimitError m)
  | .error (.externalAPIError s m) => .error (.externalAPIError s m)
  | .error _ => .error (.invalidQueryError msg)

/-- Embedding of `OpenAIService.suggest_single_book` from the completion
outcome: normalise (`'s` → `s`, drop double quotes), reject `err`
(case-insensitive), split on `|` into exactly two stripped parts. -/
def suggest_single_book (resp : Except PyErr PyStr) : Except PyErr (PyStr × PyStr) :=
  wrapSuggest "Failed to process book recommendation request" (do
    let r ← resp
    let response := removeDQuotes (replaceAposS r)
    if pyLower response = "err".data then
      Except.error (.invalidQueryError "Please provide a proper query for book recommendation")
    else
      match pySplit '|' response with
      | [t, d] => Except.ok (pyStrip t, pyStrip d)
      | _ => Except.error (.invalidQueryError "Invalid response format from AI"))

/-- Embedding of `OpenAIService.suggest_single_movie` from the completion
outcome: drop double quotes and strip, reject `err`/`error`
(case-insensitive), otherwise return the cleaned response. -/
def suggest_single_movie (resp : Except PyErr PyStr) : Except PyErr PyStr :=
  wrapSuggest "Failed to process movie recommendation request" (do
    let r ← resp
    let response := pyStrip (removeDQuotes r)
    if pyLower response = "err".data ∨ pyLower response = "error".data then
      Except.error (.invalidQueryError "Please provide a proper query for movie recommendation")
    else
      Except.ok response)

/-- Shared body of the two multi-title operations: `eval` the (possibly
normalised) response — its outcome is supplied by the `evalOut` oracle —
check `isinstance(_, list)`, coerce every element with `str()`;
`SyntaxError` and `ValueError` (including the explicit
`ValueError("Response is not a list")`) become `InvalidQueryError(msg)`,
any other exception escapes this inner `try`. -/
def evalTitleList (evalOut : PyStr → Except PyErr JVal) (response : PyStr)
    (msg : String) : Except PyErr (List PyStr) :=
  match evalOut response with
  | .ok (.list xs) => .ok (xs.map pyStrVal)
  | .ok _ => .error (.invalidQueryError msg)
  | .error .syntaxError => .error (.invalidQueryError msg)
  | .error .valueError => .error (.invalidQueryError msg)
  | .error e => .error e

/-- Embedding of `OpenAIService.suggest_multiple_books` from the completion
outcome; `evalOut` supplies the outcome of python `eval` on the normalised
response text. -/
def suggest_multiple_books (resp : Except PyErr PyStr)
    (evalOut : PyStr → Except PyErr JVal) : Except PyErr (List PyStr) :=
  wrapSuggest "Failed to process book recommendations request" (do
    let r ← resp
    evalTitleList evalOut (replaceAposS r)
      "Please provide a proper query for book recommendations")

/-- Embedding of `OpenAIService.suggest_multiple_movies` from the
completion outcome (no normalisation before `eval` on this path). -/
def suggest_multiple_movies (resp : Except PyErr PyStr)
    (evalOut : PyStr → Except PyErr JVal) : Except PyErr (List PyStr) :=
  wrapSuggest "Failed to process movie recommendations request" (do
    let r ← resp
    evalTitleList evalOut r
      "Please provide a proper query for movie recommendations")

/-! ### Book catalog resolver (`GoogleBooksService.get_book_details`) -/

/-- The dictionary `get_book_details` builds on success: the queried title
together with the extracted author, cover image and preview link. -/
structure BookDetails where
  title : PyStr
  author : JVal
  cover_image_url : JVal
  preview_url : JVal

/-- Embedding of `GoogleBooksService.get_book_details` from the outcome of
the catalog HTTP call: zero `totalItems` is a soft `None`, transport
failures and `KeyError`/`IndexError` while extracting become
`ExternalAPIError("Google Books", ...)`, other exceptions escape. -/
def get_book_details (title : PyStr) (resp : Except PyErr JVal) :
    Except PyErr (Option BookDetails) :=
  let body : Except PyErr (Option BookDetails) := do
    let books_data ← resp
    let ti ← dictGetD books_data "totalItems".data (.num 0)
    if pyEqInt ti 0 then
      pure none
    else do
      let items ← getItemS books_data "items".data
      let book_data ← getItemI items 0
      let volume_info ← dictGetD book_data "volumeInfo".data (.dict [])
      let authors ← dictGetD volume_info "authors".data (.list [.str "Unknown Author".data])
      let author ← getItemI authors 0
      let imageLinks ← dictGetD volume_info "imageLinks".data (.dict [])
      let thumb ← dictGetD imageLinks "thumbnail".data .null
      let cover := if truthy thumb then thumb else .str "assets/images/image-err.png".data
      let preview ← dictGetD volume_info "previewLink".data (.str [])
      pure (some ⟨title, author, cover, preview⟩)
  match body with
  | .error (.requestException m) => .error (.externalAPIError "Google Books" m.data)
  | .error .keyError => .error (.externalAPIError "Google Books" "Invalid response format".data)
  | .error .indexError => .error (.externalAPIError "Google Books" "Invalid response format".data)
  | r => r

/-! ### Enrichment resolver (`YouTubeService.get_trailer_url`) -/

/-- Embedding of `YouTubeService.get_trailer_url` from the outcome of the
video-search HTTP call: builds a watch URL from the first item's
`id.videoId`, returns the sentinel string `None` when there are no items,
and catches exactly `requests.RequestException`, `KeyError` and
`IndexError` (every other exception escapes). -/
def get_trailer_url (title : PyStr) (resp : Except PyErr JVal) : Except PyErr PyStr :=
  let _ := title
  let body : Except PyErr PyStr := do
    let data ← resp
    let items ← dictGetD data "items".data (.list [])
    if truthy items then do
      let it0 ← getItemI items 0
      let idv ← getItemS it0 "id".data
      let vid ← getItemS idv "videoId".data
      pure ("https://www.youtube.com/watch?v=".data ++ pyStrVal vid)
    else
      pure "None".data
  match body with
  | .error (.requestException _) => .ok "None".data
  | .error .keyError => .ok "None".data
  | .error .indexError => .ok "None".data
  | r => r

/-! ### Movie catalog resolver (`TMDBService`) -/

mutual
/-- Python `==` on `JVal` (value equality; booleans compare equal to the
matching integers, as in python). -/
def jvalBeq : JVal → JVal → Bool
  | .null, .null => true
  | .bool a, .bool b => a == b
  | .bool a, .num b => (if a then (1 : Int) else 0) == b
  | .num a, .bool b => a == (if b then (1 : Int) else 0)
  | .num a, .num b => a == b
  | .str a, .str b => a == b
  | .list xs, .list ys => jvalBeqList xs ys
  | .dict a, .dict b => jvalBeqDict a b
  | _, _ => false
termination_by structural v => v

/-- Pointwise python `==` on lists. -/
def jvalBeqList : List JVal → List JVal → Bool
  | [], [] => true
  | x :: xs, y :: ys => jvalBeq x y && jvalBeqList xs ys
  | _, _ => false
termination_by structural l => l

/-- Pointwise python `==` on string-keyed dict entry lists. -/
def jvalBeqDict : List (PyStr × JVal) → List (PyStr × JVal) → Bool
  | [], [] => true
  | (k1, v1) :: xs, (k2, v2) :: ys => k1 == k2 && jvalBeq v1 v2 && jvalBeqDict xs ys
  | _, _ => false
termination_by structural l => l
end

/-- Python hashability of a value used as a dict key. -/
def hashable : JVal → Bool
  | .list _ => false
  | .dict _ => false
  | _ => true

/-- The genre cache: a python dict keyed by genre id values. -/
abbrev GenreAssoc := List (JVal × JVal)

/-- Insertion into a python dict: an existing equal key keeps its position
and takes the new value, a new key is appended. -/
def gInsert : GenreAssoc → JVal → JVal → GenreAssoc
  | [], k, v => [(k, v)]
  | (k0, v0) :: rest, k, v =>
    if jvalBeq k0 k then (k0, v) :: rest else (k0, v0) :: gInsert rest k v

/-- Lookup in a python dict keyed by values. -/
def gLookup : GenreAssoc → JVal → Option JVal
  | [], _ => none
  | (k0, v0) :: rest, k => if jvalBeq k0 k then some v0 else gLookup rest k

/-- Embedding of the dict comprehension
`(genre["id"]: genre["name"] for genre in ...)`: entries are inserted left
to right, a missing key raises `KeyError`, a non-dict entry `TypeError`,
an unhashable id `TypeError`. -/
def buildGenreMap (acc : GenreAssoc) : List JVal → Except PyErr GenreAssoc
  | [] => .ok acc
  | g :: gs => do
    let gid ← getItemS g "id".data
    let gname ← getItemS g "name".data
    if hashable gid then buildGenreMap (gInsert acc gid gname) gs
    else .error .typeError

/-- Embedding of `TMDBService._get_genres`: the instance cache is the
explicit `cache` argument, `resp` is the outcome of the genre-list HTTP
call performed when the cache is `none`. Only
`requests.RequestException` is caught (leaving the cache as the empty
dict); an exception raised while reading the payload escapes with the
cache still unset. Returns the new cache state and the call's result. -/
def tmdb_get_genres (cache : Option GenreAssoc) (resp : Except PyErr JVal) :
    Option GenreAssoc × Except PyErr GenreAssoc :=
  match cache with
  | some m => (some m, .ok m)
  | none =>
    match resp with
    | .error (.requestException _) => (some [], .ok [])
    | .error e => (none, .error e)
    | .ok data =>
      match (do
        let gs ← dictGetD data "genres".data (.list [])
        let items ← pyIter gs
        buildGenreMap [] items) with
      | .ok m => (some m, .ok m)
      | .error e => (none, .error e)

/-- Embedding of `TMDBService.get_genre_name`: `_get_genres` followed by
`genres.get(genre_id, "Unknown Genre")` (python `dict.get` raises
`TypeError` on an unhashable key). -/
def get_genre_name (cache : Option GenreAssoc) (resp : Except PyErr JVal)
    (gid : JVal) : Option GenreAssoc × Except PyErr JVal :=
  match tmdb_get_genres cache resp with
  | (c, .error e) => (c, .error e)
  | (c, .ok m) =>
    if hashable gid then (c, .ok ((gLookup m gid).getD (.str "Unknown Genre".data)))
    else (c, .error .typeError)

/-- The list comprehension
`(self.get_genre_name(genre_id) for genre_id in genre_ids)`, threading the
genre-cache state left to right. -/
def mapGenreNames (cache : Option GenreAssoc) (genreResp : Except PyErr JVal) :
    List JVal → Option GenreAssoc × Except PyErr (List JVal)
  | [] => (cache, .ok [])
  | g :: gs =>
    match get_genre_name cache genreResp g with
    | (c1, .error e) => (c1, .error e)
    | (c1, .ok n) =>
      match mapGenreNames c1 genreResp gs with
      | (c2, .ok ns) => (c2, .ok (n :: ns))
      | (c2, .error e) => (c2, .error e)

/-- Embedding of `TMDBService.search_movie` from the outcomes of the
movie-search call (`resp`) and the genre-list call (`genreResp`): an empty
`results` list raises `ExternalAPIError("TMDB", "No movie found for title:
...")`; only `requests.RequestException` from the search call itself is
converted to `ExternalAPIError("TMDB", ...)`; the first result is
decorated with `poster_url` and `genre_names`. -/
def search_movie (title : PyStr) (cache : Option GenreAssoc)
    (resp : Except PyErr JVal) (genreResp : Except PyErr JVal) :
    Option GenreAssoc × Except PyErr JVal :=
  match resp with
  | .error (.requestException m) => (cache, .error (.externalAPIError "TMDB" m.data))
  | .error e => (cache, .error e)
  | .ok data =>
    match dictGetD data "results".data (.list []) with
    | .error e => (cache, .error e)
    | .ok results =>
      if !truthy results then
        (cache, .error (.externalAPIError "TMDB" ("No movie found for title: ".data ++ title)))
      else
        match getItemI results 0 with
        | .error e => (cache, .error e)
        | .ok movie_data =>
          match dictGetD movie_data "poster_path".data .null with
          | .error e => (cache, .error e)
          | .ok poster_path =>
            let posterUrl : JVal :=
              if truthy poster_path then
                .str ("https://image.tmdb.org/t/p/original/".data ++ pyStrVal poster_path)
              else .null
            match setItemS movie_data "poster_url".data posterUrl with
            | .error e => (cache, .error e)
            | .ok md1 =>
              match dictGetD md1 "genre_ids".data (.list []) with
              | .error e => (cache, .error e)
              | .ok genre_ids =>
                match pyIter genre_ids with
                | .error e => (cache, .error e)
                | .ok gids =>
                  match mapGenreNames cache genreResp gids with
                  | (c1, .error e) => (c1, .error e)
                  | (c1, .ok names) =>
                    match setItemS md1 "genre_names".data (.list names) with
                    | .error e => (c1, .error e)
                    | .ok md2 => (c1, .ok md2)

/-! ### Query cache store (`src/app/models.py`, `src/app/database.py`,
`BookService` in `src/app/services/book_service.py`)

The SQLAlchemy session is created with `autoflush=False`
(`src/app/database.py`), so queries see only committed rows, never pending
`db.add`ed objects. Python object identity (`oid`) models the default
`__eq__` used by the `in` membership test on the relationship list.
`models.Book.title` carries `unique=True` and the tables are created from
the models (`dependency.py` calls `Base.metadata.create_all`), so a commit
flushing two books with one title raises `IntegrityError`. -/

/-- A `models.Book` ORM object. -/
structure BookObj where
  oid : Nat
  title : PyStr
  author : JVal
  preview_url : JVal
  cover_image_url : JVal

/-- A `models.BookSearch` ORM object. -/
structure SearchObj where
  query : PyStr
  search_count : Int
  books : List BookObj

/-- The database session: committed rows, pending (added, unflushed) book
objects, and an allocator for fresh object identities. -/
structure Session where
  books : List BookObj
  searches : List SearchObj
  newBooks : List BookObj
  nextOid : Nat

/-- Embedding of `BookService.get_book_search_by_query`: a `filter(...)
.first()` query, which with `autoflush=False` sees only committed rows. -/
def get_book_search_by_query (s : Session) (q : PyStr) : Option SearchObj :=
  s.searches.find? (fun bs => bs.query == q)

/-- Embedding of `BookService.get_book_by_title`: a `filter(...).first()`
query, which with `autoflush=False` sees only committed rows — pending
objects in `newBooks` are invisible to it. -/
def get_book_by_title (s : Session) (t : PyStr) : Option BookObj :=
  s.books.find? (fun b => b.title == t)

/-- Python `db_book in book_search.books`: list membership under the
default `__eq__` (object identity). -/
def memByOid (bs : List BookObj) (b : BookObj) : Bool :=
  bs.any (fun x => x.oid == b.oid)

/-- One iteration of the title loop in `BookService.create_book_search`:
resolve the title (an `ExternalAPIError` or a soft not-found skips it),
reuse a committed row with the same title or create and `db.add` a fresh
object, and append it to the search's books if not already a member. -/
def processTitle (sess : Session) (bsBooks : List BookObj)
    (catalog : PyStr → Except PyErr (Option BookDetails)) (title : PyStr) :
    Except PyErr (Session × List BookObj) :=
  match catalog title with
  | .error (.externalAPIError _ _) => .ok (sess, bsBooks)
  | .error e => .error e
  | .ok none => .ok (sess, bsBooks)
  | .ok (some bd) =>
    match get_book_by_title sess bd.title with
    | some db_book =>
      if memByOid bsBooks db_book then .ok (sess, bsBooks)
      else .ok (sess, bsBooks ++ [db_book])
    | none =>
      let db_book : BookObj :=
        ⟨sess.nextOid, bd.title, bd.author, bd.preview_url, bd.cover_image_url⟩
      let sess1 : Session :=
        { sess with newBooks := sess.newBooks ++ [db_book], nextOid := sess.nextOid + 1 }
      if memByOid bsBooks db_book then .ok (sess1, bsBooks)
      else .ok (sess1, bsBooks ++ [db_book])

/-- The full title loop of `create_book_search`, also counting the catalog
calls actually made. -/
def processTitles (sess : Session) (bsBooks : List BookObj)
    (catalog : PyStr → Except PyErr (Option BookDetails)) :
    List PyStr → Except PyErr (Session × List BookObj) × Nat
  | [] => (.ok (sess, bsBooks), 0)
  | t :: ts =>
    match processTitle sess bsBooks catalog t with
    | .error e => (.error e, 1)
    | .ok (s1, b1) =>
      match processTitles s1 b1 catalog ts with
      | (r, n) => (r, n + 1)

/-- Replace the search row with the same query, or append it. -/
def upsertSearch : List SearchObj → SearchObj → List SearchObj
  | [], bs => [bs]
  | s0 :: rest, bs =>
    if s0.query == bs.query then bs :: rest else s0 :: upsertSearch rest bs

/-- Embedding of `db.commit()`: flush the pending book objects into the
committed rows and persist the search; the `unique=True` constraint on
`books.title` makes the flush raise `IntegrityError` when two books (new
or committed) share a title. -/
def commitSearch (s : Session) (bs : SearchObj) : Except PyErr (Session × SearchObj) :=
  let allBooks := s.books ++ s.newBooks
  if (allBooks.map (fun b => b.title)).Nodup then
    .ok (⟨allBooks, upsertSearch s.searches bs, [], s.nextOid⟩, bs)
  else .error .integrityError

/-- Embedding of `BookService.create_book_search`: reuse or create the
search record, run the title loop, increment `search_count`, commit.
Returns the outcome together with the number of catalog calls made. -/
def create_book_search (sess : Session) (query : PyStr) (titles : List PyStr)
    (catalog : PyStr → Except PyErr (Option BookDetails)) :
    Except PyErr (Session × SearchObj) × Nat :=
  let bs0 : SearchObj :=
    match get_book_search_by_query sess query with
    | some s => s
    | none => ⟨query, 0, []⟩
  match processTitles sess bs0.books catalog titles with
  | (.error e, n) => (.error e, n)
  | (.ok (s1, books1), n) =>
    let bs1 : SearchObj := { bs0 with search_count := bs0.search_count + 1, books := books1 }
    (commitSearch s1 bs1, n)

/-! ### HTTP endpoints (`src/app/routers/books.py`, `src/app/routers/movies.py`)

Each endpoint declares `q: str = Query(..., min_length=3)`: FastAPI
validates the length of the raw query parameter before the handler body
runs, and the handler strips it afterwards. The embeddings also count how
many completion-client calls and catalog/enrichment resolver calls were
made, so that absence of external calls is expressible. -/

/-- The HTTP outcome of an endpoint: a payload, a FastAPI parameter
validation rejection (422), an `HTTPException`-style error response, or an
exception that escapes the handler (500 from the global handler). -/
inductive Resp (α : Type) where
  | ok (v : α)
  | rejected422
  | httpError (code : Nat) (detail : String)
  | unhandled (e : PyErr)

/-- Outcome of a run of an endpoint together with the number of
completion-client calls and catalog/enrichment resolver calls it made. -/
structure EndpointResult (α : Type) where
  resp : Resp α
  completionCalls : Nat
  resolverCalls : Nat

/-- The three `except` clauses shared by all four handlers:
`InvalidQueryError` maps to 400, `RateLimitExceededError` to 429,
`ExternalAPIError` to 503 (with `str(e)` as detail); anything else
escapes to the global 500 handler. -/
def routeErr {α : Type} : PyErr → Resp α
  | .invalidQueryError m => .httpError 400 m
  | .rateLimitError m => .httpError 429 m
  | .externalAPIError s m =>
    .httpError 503 ("External API error (" ++ s ++ "): " ++ String.mk m)
  | e => .unhandled e

/-- The response dict built by `get_book_details`, in source field order. -/
def bookDetailsDict (bd : BookDetails) : JVal :=
  .dict [("title".data, .str bd.title), ("author".data, bd.author),
         ("cover_image_url".data, bd.cover_image_url), ("preview_url".data, bd.preview_url)]

/-- Embedding of `GET /books/suggest`: validate, strip, completion client
(single book), catalog lookup, 404 on soft not-found, attach the
AI description. `chatOut` is the completion call outcome per query and
`bookResp` the catalog HTTP outcome per title. -/
def books_suggest (q : PyStr) (chatOut : PyStr → Except PyErr PyStr)
    (bookResp : PyStr → Except PyErr JVal) : EndpointResult JVal :=
  if q.length < 3 then ⟨.rejected422, 0, 0⟩
  else
    match suggest_single_book (chatOut (pyStrip q)) with
    | .error e => ⟨routeErr e, 1, 0⟩
    | .ok (title, description) =>
      match get_book_details title (bookResp title) with
      | .error e => ⟨routeErr e, 1, 1⟩
      | .ok none =>
        ⟨.httpError 404 "Could not find book details for the suggested title", 1, 1⟩
      | .ok (some bd) =>
        match setItemS (bookDetailsDict bd) "description".data (.str description) with
        | .error e => ⟨routeErr e, 1, 1⟩
        | .ok payload => ⟨.ok payload, 1, 1⟩

/-- Embedding of `GET /books/suggest-many`: validate, strip, consult the
query cache (a hit with a non-empty book set returns it unchanged),
otherwise completion client (title list), 404 on an empty list,
`create_book_search`, 404 on an empty result set. Returns the outcome and
the session state after the request. -/
def books_suggest_many (q : PyStr) (sess : Session)
    (chatOut : PyStr → Except PyErr PyStr) (evalOut : PyStr → Except PyErr JVal)
    (bookResp : PyStr → Except PyErr JVal) :
    EndpointResult (List BookObj) × Session :=
  if q.length < 3 then (⟨.rejected422, 0, 0⟩, sess)
  else
    let query := pyStrip q
    let onMiss : EndpointResult (List BookObj) × Session :=
      match suggest_multiple_books (chatOut query) evalOut with
      | .error e => (⟨routeErr e, 1, 0⟩, sess)
      | .ok titles =>
        if titles.isEmpty then
          (⟨.httpError 404 "No book recommendations could be generated for this query", 1, 0⟩,
            sess)
        else
          match create_book_search sess query titles
              (fun t => get_book_details t (bookResp t)) with
          | (.error e, n) => (⟨.unhandled e, 1, n⟩, sess)
          | (.ok (sess1, bs), n) =>
            if bs.books.isEmpty then
              (⟨.httpError 404 "Could not find details for any of the suggested books", 1, n⟩,
                sess1)
            else (⟨.ok bs.books, 1, n⟩, sess1)
    match get_book_search_by_query sess query with
    | some cached => if !cached.books.isEmpty then (⟨.ok cached.books, 0, 0⟩, sess) else onMiss
    | none => onMiss

/-- Embedding of `MovieService.get_movie_details`: `search_movie`, then the
trailer lookup, attached as `trailer_url`; `ExternalAPIError` is re-raised
as-is and any other exception becomes
`ExternalAPIError("MovieService", ...)`. -/
def get_movie_details (title : PyStr) (cache : Option GenreAssoc)
    (movieResp genreResp trailerResp : Except PyErr JVal) :
    Option GenreAssoc × Except PyErr JVal :=
  let wrap : PyErr → PyErr := fun e =>
    match e with
    | .externalAPIError s m => .externalAPIError s m
    | _ => .externalAPIError "MovieService" ("Failed to process movie: ".data ++ title)
  match search_movie title cache movieResp genreResp with
  | (c, .error e) => (c, .error (wrap e))
  | (c, .ok md) =>
    match get_trailer_url title trailerResp with
    | .error e => (c, .error (wrap e))
    | .ok turl =>
      match setItemS md "trailer_url".data (.str turl) with
      | .error e => (c, .error (wrap e))
      | .ok md2 => (c, .ok md2)

/-- Embedding of `GET /movies/suggest`: validate, strip, completion client
(single movie), movie details (catalog + enrichment). -/
def movies_suggest (q : PyStr) (chatOut : PyStr → Except PyErr PyStr)
    (cache : Option GenreAssoc)
    (movieResp trailerResp : PyStr → Except PyErr JVal)
    (genreResp : Except PyErr JVal) : EndpointResult JVal × Option GenreAssoc :=
  if q.length < 3 then (⟨.rejected422, 0, 0⟩, cache)
  else
    match suggest_single_movie (chatOut (pyStrip q)) with
    | .error e => (⟨routeErr e, 1, 0⟩, cache)
    | .ok title =>
      match get_movie_details title cache (movieResp title) genreResp (trailerResp title) with
      | (c, .error e) => (⟨routeErr e, 1, 1⟩, c)
      | (c, .ok md) => (⟨.ok md, 1, 1⟩, c)

/-- The `for idx, movie_title in enumerate(movie_titles, 1)` loop of
`suggest_movies`: each title is resolved, a failing title
(`ExternalAPIError`) is skipped, a surviving record gets `id = idx` where
`idx` is the title's position in the suggested list. Also counts resolver
calls. -/
def moviesLoop (movieResp trailerResp : PyStr → Except PyErr JVal)
    (genreResp : Except PyErr JVal) (cache : Option GenreAssoc) (idx : Int) :
    List PyStr → Option GenreAssoc × Except PyErr (List JVal) × Nat
  | [] => (cache, .ok [], 0)
  | t :: ts =>
    match get_movie_details t cache (movieResp t) genreResp (trailerResp t) with
    | (c1, .error (.externalAPIError _ _)) =>
      match moviesLoop movieResp trailerResp genreResp c1 (idx + 1) ts with
      | (c2, r, n) => (c2, r, n + 1)
    | (c1, .error e) => (c1, .error e, 1)
    | (c1, .ok md) =>
      match setItemS md "id".data (.num idx) with
      | .error e => (c1, .error e, 1)
      | .ok md2 =>
        match moviesLoop movieResp trailerResp genreResp c1 (idx + 1) ts with
        | (c2, .ok rest, n) => (c2, .ok (md2 :: rest), n + 1)
        | (c2, .error e, n) => (c2, .error e, n + 1)

/-- Embedding of `GET /movies/suggest-many`: validate, strip, completion
client (title list), 404 on an empty list, per-title resolution loop with
skip-on-failure and `enumerate`-based ids, 404 when nothing survives. -/
def movies_suggest_many (q : PyStr) (chatOut : PyStr → Except PyErr PyStr)
    (evalOut : PyStr → Except PyErr JVal) (cache : Option GenreAssoc)
    (movieResp trailerResp : PyStr → Except PyErr JVal)
    (genreResp : Except PyErr JVal) :
    EndpointResult (List JVal) × Option GenreAssoc :=
  if q.length < 3 then (⟨.rejected422, 0, 0⟩, cache)
  else
    let query := pyStrip q
    match suggest_multiple_movies (chatOut query) evalOut with
    | .error e => (⟨routeErr e, 1, 0⟩, cache)
    | .ok titles =>
      if titles.isEmpty then
        (⟨.httpError 404 "No movie recommendations could be generated for this query", 1, 0⟩,
          cache)
      else
        match moviesLoop movieResp trailerResp genreResp cache 1 titles with
        | (c, .error e, n) => (⟨.unhandled e, 1, n⟩, c)
        | (c, .ok movies, n) =>
          if movies.isEmpty then
            (⟨.httpError 404 "Could not find details for any of the suggested movies", 1, n⟩, c)
          else (⟨.ok movies, 1, n⟩, c)

/-! ## Claims -/

/-- An always-failing completion-outcome oracle, for runs whose claims
promise the oracle is never consulted. -/
def oracleUnusedS : PyStr → Except PyErr PyStr := fun _ => .error .typeError

/-- An always-failing JSON-outcome oracle, for runs whose claims promise
the oracle is never consulted. -/
def oracleUnusedJ : PyStr → Except PyErr JVal := fun _ => .error .typeError

/-- Claim C2: on a books suggest-many request whose trimmed query has a
cached Book Search record with a non-empty book set, the endpoint returns
exactly that set, makes no completion-client call and no catalog call, and
leaves the session (in particular the record's `search_count`) unchanged. -/
theorem cache_hit_short_circuits (q : PyStr) (sess : Session)
    (chatOut : PyStr → Except PyErr PyStr) (evalOut : PyStr → Except PyErr JVal)
    (bookResp : PyStr → Except PyErr JVal) (cs : SearchObj)
    (hq : ¬ q.length < 3)
    (hfound : get_book_search_by_query sess (pyStrip q) = some cs)
    (hne : cs.books ≠ []) :
    books_suggest_many q sess chatOut evalOut bookResp = (⟨.ok cs.books, 0, 0⟩, sess) := by
  unfold books_suggest_many
  rw [if_neg hq]
  have hbe : cs.books.isEmpty = false := by
    cases h : cs.books with
    | nil => exact absurd h hne
    | cons a l => rfl
  simp only [hfound, hbe, Bool.not_false, if_true]

/-- A committed book row for the C2 witness. -/
def c2Book : BookObj := ⟨0, "B".data, .str "a".data, .str [], .str []⟩

/-- A cached search record for the C2 witness. -/
def c2Search : SearchObj := ⟨"abc".data, 5, [c2Book]⟩

/-- A session holding the cached record for the C2 witness. -/
def c2Sess : Session := ⟨[c2Book], [c2Search], [], 1⟩

/-- Witness for C2 at the query `abc` with a cached record of one book. -/
theorem cache_hit_short_circuits_witness :
    books_suggest_many "abc".data c2Sess oracleUnusedS oracleUnusedJ oracleUnusedJ
      = (⟨.ok [c2Book], 0, 0⟩, c2Sess) :=
  cache_hit_short_circuits "abc".data c2Sess oracleUnusedS oracleUnusedJ oracleUnusedJ
    c2Search (by decide) rfl (by simp [c2Search])

/-- Claim C3 counterexample: the query `" a "` has 3 raw characters but
only 1 after trimming; it passes FastAPI's `min_length=3` validation, so a
books suggest-many request with it on an empty session is not rejected and
does make a completion-client call. -/
theorem short_trimmed_query_not_rejected :
    (pyStrip " a ".data).length < 3 ∧
    (books_suggest_many " a ".data ⟨[], [], [], 0⟩
        (fun _ => .ok "x".data) (fun _ => .ok (.list [])) oracleUnusedJ).1.completionCalls
      = 1 := by
  exact ⟨by decide, rfl⟩

/-- Claim C3, amended: a request to any of the four suggest endpoints
whose raw query parameter `q` has fewer than 3 characters (before
trimming) is rejected by parameter validation with no external call;
trimming happens only after validation, so this bound applies to the raw
string. -/
theorem short_query_rejected_before_external_calls (q : PyStr) (hq : q.length < 3) :
    (∀ chatOut bookResp, books_suggest q chatOut bookResp = ⟨.rejected422, 0, 0⟩) ∧
    (∀ sess chatOut evalOut bookResp,
      books_suggest_many q sess chatOut evalOut bookResp = (⟨.rejected422, 0, 0⟩, sess)) ∧
    (∀ chatOut cache movieResp trailerResp genreResp,
      movies_suggest q chatOut cache movieResp trailerResp genreResp
        = (⟨.rejected422, 0, 0⟩, cache)) ∧
    (∀ chatOut evalOut cache movieResp trailerResp genreResp,
      movies_suggest_many q chatOut evalOut cache movieResp trailerResp genreResp
        = (⟨.rejected422, 0, 0⟩, cache)) := by
  refine ⟨fun _ _ => ?_, fun _ _ _ _ => ?_, fun _ _ _ _ _ => ?_, fun _ _ _ _ _ _ => ?_⟩ <;>
    simp [books_suggest, books_suggest_many, movies_suggest, movies_suggest_many, hq]

/-- Witness for the amended C3 at the one-character query `a`. -/
theorem short_query_rejected_witness :
    books_suggest "a".data oracleUnusedS oracleUnusedJ = ⟨.rejected422, 0, 0⟩ :=
  (short_query_rejected_before_external_calls "a".data (by decide)).1
    oracleUnusedS oracleUnusedJ

/-- The catalog oracle for the C5 failing input: every lookup succeeds and
returns a record titled with the queried title. -/
def c5Catalog : PyStr → Except PyErr (Option BookDetails) :=
  fun t => .ok (some ⟨t, .str "a".data, .str [], .str []⟩)

/-- The empty session for the C5 failing input. -/
def c5Sess : Session := ⟨[], [], [], 0⟩

/-- Titles of the books the C5 run associates to the search record just
before the commit. -/
def c5BookTitles : List PyStr :=
  match (processTitles c5Sess [] c5Catalog ["A".data, "B".data, "B".data]).1 with
  | .ok (_, bs) => bs.map (fun b => b.title)
  | .error _ => []

/-- Claim C5 is violated by the code: on a fresh query with titles
`["A", "B", "B"]` and all catalog lookups succeeding, the session runs
with `autoflush=False`, so the second `B` lookup does not see the pending
first `B` row; `create_book_search` appends two distinct book objects
titled `B` to the search's books, and the commit then violates the
`unique=True` constraint on `books.title` with an `IntegrityError`. -/
theorem duplicate_title_in_one_batch_bug :
    c5BookTitles.count "B".data = 2 ∧
    c5BookTitles = ["A".data, "B".data, "B".data] ∧
    (create_book_search c5Sess "q".data ["A".data, "B".data, "B".data] c5Catalog).1
      = .error .integrityError := by
  refine ⟨by decide, by decide, rfl⟩

/-- Claim C6: a catalog search that succeeds with zero results is a soft
`None` from the book resolver but an `ExternalAPIError` naming TMDB from
the movie resolver. -/
theorem zero_results_asymmetry (title : PyStr) (bd md tv rv : JVal)
    (cache : Option GenreAssoc) (genreResp : Except PyErr JVal)
    (hbt : dictGetD bd "totalItems".data (.num 0) = .ok tv)
    (hbz : pyEqInt tv 0 = true)
    (hmr : dictGetD md "results".data (.list []) = .ok rv)
    (hmz : truthy rv = false) :
    get_book_details title (.ok bd) = .ok none ∧
    search_movie title cache (.ok md) genreResp
      = (cache, .error (.externalAPIError "TMDB"
          ("No movie found for title: ".data ++ title))) := by
  constructor
  · unfold get_book_details
    simp only [bind, Except.bind, pure, Except.pure, hbt, hbz, if_true]
  · unfold search_movie
    dsimp only
    rw [hmr]
    dsimp only
    simp [hmz]

/-- Witness for C6 at literal zero-result payloads. -/
theorem zero_results_asymmetry_witness :
    get_book_details "T".data (.ok (.dict [("totalItems".data, .num 0)])) = .ok none ∧
    search_movie "T".data none (.ok (.dict [("results".data, .list [])])) (.ok .null)
      = (none, .error (.externalAPIError "TMDB"
          ("No movie found for title: ".data ++ "T".data))) :=
  zero_results_asymmetry "T".data (.dict [("totalItems".data, .num 0)])
    (.dict [("results".data, .list [])]) (.num 0) (.list []) none (.ok .null)
    rfl rfl rfl rfl

/-- A malformed genre payload: one genre entry lacking the `name` key. -/
def c10Bad : JVal := .dict [("genres".data, .list [.dict [("id".data, .num 1)]])]

/-- A well-formed genre payload with one genre. -/
def c10Good : JVal :=
  .dict [("genres".data, .list [.dict [("id".data, .num 1), ("name".data, .str "Action".data)]])]

/-- Claim C10 counterexample: a first `_get_genres` call whose genre
payload is malformed raises `KeyError` (not caught — only
`requests.RequestException` is) and leaves the cache `None`, and a later
call does fetch and populate again — so the cache is neither guaranteed
non-`None` after the first call nor never refetched. -/
theorem genre_cache_refetch_counterexample :
    tmdb_get_genres none (.ok c10Bad) = (none, .error .keyError) ∧
    tmdb_get_genres none (.ok c10Good) = (some [(.num 1, .str "Action".data)],
      .ok [(.num 1, .str "Action".data)]) := by
  exact ⟨rfl, rfl⟩

/-- Claim C10, amended: a populated genre cache is never refetched or
changed; a first fetch that fails at transport level leaves the cache
permanently the empty map; with the empty map cached, `get_genre_name`
returns `Unknown Genre` for every (hashable) genre id without fetching.
A first call that raises while reading the genre payload, however, leaves
the cache unset, and the next call fetches again. -/
theorem genre_cache_lifecycle (m : GenreAssoc) (resp : Except PyErr JVal)
    (msg : String) (gid : JVal) (hg : hashable gid = true) :
    tmdb_get_genres (some m) resp = (some m, .ok m) ∧
    tmdb_get_genres none (.error (.requestException msg)) = (some [], .ok []) ∧
    get_genre_name (some []) resp gid = (some [], .ok (.str "Unknown Genre".data)) := by
  refine ⟨rfl, rfl, ?_⟩
  unfold get_genre_name tmdb_get_genres
  simp [hg, gLookup]

/-- Witness for the amended C10 at a one-entry cache and genre id 7. -/
theorem genre_cache_lifecycle_witness :
    tmdb_get_genres (some [(.num 1, .str "Action".data)]) (.ok c10Good)
      = (some [(.num 1, .str "Action".data)], .ok [(.num 1, .str "Action".data)]) ∧
    get_genre_name (some []) (.ok c10Good) (.num 7)
      = (some [], .ok (.str "Unknown Genre".data)) :=
  ⟨(genre_cache_lifecycle [(.num 1, .str "Action".data)] (.ok c10Good) "" (.num 7) rfl).1,
   (genre_cache_lifecycle [] (.ok c10Good) "" (.num 7) rfl).2.2⟩

/-- A string whose lower-casing is `err` contains no `|`, so splitting it
on `|` yields the single part `[l]`. -/
theorem pyLower_eq_err_no_bar {l : PyStr} (h : pyLower l = "err".data) :
    pySplit '|' l = [l] := by
  have hd : "err".data = ['e', 'r', 'r'] := rfl
  rw [hd] at h
  unfold pyLower at h
  have hlen : l.length = 3 := by
    have h2 := congrArg List.length h
    simpa using h2
  obtain ⟨a, b, c, rfl⟩ := List.length_eq_three.mp hlen
  simp only [List.map, List.cons.injEq, and_true] at h
  obtain ⟨ha, hb, hc⟩ := h
  have na : a ≠ '|' := fun hh => by rw [hh] at ha; exact absurd ha (by decide)
  have nb : b ≠ '|' := fun hh => by rw [hh] at hb; exact absurd hb (by decide)
  have nc : c ≠ '|' := fun hh => by rw [hh] at hc; exact absurd hc (by decide)
  simp [pySplit, na, nb, nc]

/-- Unfolding of `suggest_single_book` on a successful completion call. -/
theorem suggest_single_book_ok_eq (r : PyStr) :
    suggest_single_book (.ok r) =
      (if pyLower (removeDQuotes (replaceAposS r)) = "err".data then
        Except.error (.invalidQueryError "Failed to process book recommendation request")
      else
        match pySplit '|' (removeDQuotes (replaceAposS r)) with
        | [t, d] => Except.ok (pyStrip t, pyStrip d)
        | _ =>
          Except.error (.invalidQueryError "Failed to process book recommendation request")) := by
  unfold suggest_single_book wrapSuggest
  dsimp only [bind, Except.bind]
  by_cases herr : pyLower (removeDQuotes (replaceAposS r)) = "err".data
  · rw [if_pos herr, if_pos herr]
  · rw [if_neg herr, if_neg herr]
    cases hs : pySplit '|' (removeDQuotes (replaceAposS r)) with
    | nil => rfl
    | cons t rest =>
      cases rest with
      | nil => rfl
      | cons d rest2 => cases rest2 <;> rfl

/-- Claim C4: after the defensive normalisation of the completion text
(replacing `'s` with `s` and removing double quotes), `suggest_single_book`
raises `InvalidQuery` on a case-insensitive `err`; returns the pair of
stripped parts when the text splits on `|` into exactly two parts; and
raises `InvalidQuery` when the split yields any other number of parts. -/
theorem single_book_parsing (r : PyStr) :
    (pyLower (removeDQuotes (replaceAposS r)) = "err".data →
      suggest_single_book (.ok r)
        = .error (.invalidQueryError "Failed to process book recommendation request")) ∧
    (∀ t d, pySplit '|' (removeDQuotes (replaceAposS r)) = [t, d] →
      suggest_single_book (.ok r) = .ok (pyStrip t, pyStrip d)) ∧
    ((pySplit '|' (removeDQuotes (replaceAposS r))).length ≠ 2 →
      suggest_single_book (.ok r)
        = .error (.invalidQueryError "Failed to process book recommendation request")) := by
  refine ⟨fun herr => ?_, fun t d hs => ?_, fun hlen => ?_⟩
  · rw [suggest_single_book_ok_eq, if_pos herr]
  · have herr : ¬ pyLower (removeDQuotes (replaceAposS r)) = "err".data := by
      intro h
      have h1 := pyLower_eq_err_no_bar h
      rw [hs] at h1
      have h2 := congrArg List.length h1
      simp at h2
    rw [suggest_single_book_ok_eq, if_neg herr, hs]
  · rw [suggest_single_book_ok_eq]
    by_cases herr : pyLower (removeDQuotes (replaceAposS r)) = "err".data
    · rw [if_pos herr]
    · rw [if_neg herr]
      cases hs : pySplit '|' (removeDQuotes (replaceAposS r)) with
      | nil => rfl
      | cons t rest =>
        cases rest with
        | nil => rfl
        | cons d rest2 =>
          cases rest2 with
          | nil =>
            exact absurd
              (by rw [hs]; rfl : (pySplit '|' (removeDQuotes (replaceAposS r))).length = 2) hlen
          | cons x xs => rfl

/-- Witness for C4 at the example response, which splits into two parts. -/
theorem single_book_parsing_witness :
    suggest_single_book (.ok "Dune|Explores power and ecology".data)
      = .ok ("Dune".data, "Explores power and ecology".data) :=
  (single_book_parsing "Dune|Explores power and ecology".data).2.1
    "Dune".data "Explores power and ecology".data (by decide)

/-- Case analysis of the shared list-parsing tail
`wrapSuggest msgO (evalTitleList ev resp0 msgI)`. -/
theorem evalTitleList_cases (ev : PyStr → Except PyErr JVal) (resp0 : PyStr)
    (msgI msgO : String) :
    (∀ xs, ev resp0 = .ok (.list xs) →
      wrapSuggest msgO (evalTitleList ev resp0 msgI) = .ok (List.map pyStrVal xs)) ∧
    (ev resp0 = .error .syntaxError →
      wrapSuggest msgO (evalTitleList ev resp0 msgI) = .error (.invalidQueryError msgO)) ∧
    (∀ v, ev resp0 = .ok v → (∀ xs, v ≠ .list xs) →
      wrapSuggest msgO (evalTitleList ev resp0 msgI) = .error (.invalidQueryError msgO)) := by
  refine ⟨fun xs h => ?_, fun h => ?_, fun v h hnl => ?_⟩
  · unfold evalTitleList wrapSuggest
    rw [h]
  · unfold evalTitleList wrapSuggest
    rw [h]
  · unfold evalTitleList wrapSuggest
    rw [h]
    cases v with
    | list xs => exact absurd rfl (hnl xs)
    | null => rfl
    | bool b => rfl
    | num n => rfl
    | str s => rfl
    | dict es => rfl

/-- Claim C7: for the two multi-title operations, once the completion call
has succeeded, an `eval` outcome in the claim's scope (a syntax error, or
a successfully parsed value) never yields `ExternalAPIError`; a parsed
non-list or a syntax error yields `InvalidQuery`; and a parsed list is
returned with every element coerced by `str()`. -/
theorem multi_title_parsing (r : PyStr) (evalB evalM : PyStr → Except PyErr JVal)
    (hB : evalB (replaceAposS r) = .error .syntaxError ∨ ∃ v, evalB (replaceAposS r) = .ok v)
    (hM : evalM r = .error .syntaxError ∨ ∃ v, evalM r = .ok v) :
    ((∀ s m, suggest_multiple_books (.ok r) evalB ≠ .error (.externalAPIError s m)) ∧
     (∀ xs, evalB (replaceAposS r) = .ok (.list xs) →
       suggest_multiple_books (.ok r) evalB = .ok (List.map pyStrVal xs)) ∧
     (evalB (replaceAposS r) = .error .syntaxError ∨
         (∃ v, evalB (replaceAposS r) = .ok v ∧ ∀ xs, v ≠ .list xs) →
       suggest_multiple_books (.ok r) evalB
         = .error (.invalidQueryError "Failed to process book recommendations request"))) ∧
    ((∀ s m, suggest_multiple_movies (.ok r) evalM ≠ .error (.externalAPIError s m)) ∧
     (∀ xs, evalM r = .ok (.list xs) →
       suggest_multiple_movies (.ok r) evalM = .ok (List.map pyStrVal xs)) ∧
     (evalM r = .error .syntaxError ∨ (∃ v, evalM r = .ok v ∧ ∀ xs, v ≠ .list xs) →
       suggest_multiple_movies (.ok r) evalM
         = .error (.invalidQueryError "Failed to process movie recommendations request"))) := by
  have hbEq : suggest_multiple_books (.ok r) evalB =
      wrapSuggest "Failed to process book recommendations request"
        (evalTitleList evalB (replaceAposS r)
          "Please provide a proper query for book recommendations") := rfl
  have hmEq : suggest_multiple_movies (.ok r) evalM =
      wrapSuggest "Failed to process movie recommendations request"
        (evalTitleList evalM r
          "Please provide a proper query for movie recommendations") := rfl
  obtain ⟨cB1, cB2, cB3⟩ := evalTitleList_cases evalB (replaceAposS r)
    "Please provide a proper query for book recommendations"
    "Failed to process book recommendations request"
  obtain ⟨cM1, cM2, cM3⟩ := evalTitleList_cases evalM r
    "Please provide a proper query for movie recommendations"
    "Failed to process movie recommendations request"
  constructor
  · refine ⟨fun s m hcontra => ?_, fun xs h => by rw [hbEq, cB1 xs h], fun h => ?_⟩
    · rw [hbEq] at hcontra
      rcases hB with h | ⟨v, h⟩
      · rw [cB2 h] at hcontra
        exact PyErr.noConfusion (Except.error.inj hcontra)
      · by_cases hl : ∃ xs, v = .list xs
        · obtain ⟨xs, rfl⟩ := hl
          rw [cB1 xs h] at hcontra
          exact Except.noConfusion hcontra
        · rw [cB3 v h (fun xs hxs => hl ⟨xs, hxs⟩)] at hcontra
          exact PyErr.noConfusion (Except.error.inj hcontra)
    · rcases h with h | ⟨v, h, hnl⟩
      · rw [hbEq, cB2 h]
      · rw [hbEq, cB3 v h hnl]
  · refine ⟨fun s m hcontra => ?_, fun xs h => by rw [hmEq, cM1 xs h], fun h => ?_⟩
    · rw [hmEq] at hcontra
      rcases hM with h | ⟨v, h⟩
      · rw [cM2 h] at hcontra
        exact PyErr.noConfusion (Except.error.inj hcontra)
      · by_cases hl : ∃ xs, v = .list xs
        · obtain ⟨xs, rfl⟩ := hl
          rw [cM1 xs h] at hcontra
          exact Except.noConfusion hcontra
        · rw [cM3 v h (fun xs hxs => hl ⟨xs, hxs⟩)] at hcontra
          exact PyErr.noConfusion (Except.error.inj hcontra)
    · rcases h with h | ⟨v, h, hnl⟩
      · rw [hmEq, cM2 h]
      · rw [hmEq, cM3 v h hnl]

/-- Witness for C7: a parsed `[1, 2]` on both paths is coerced to the
string titles `["1", "2"]`. -/
theorem multi_title_parsing_witness :
    suggest_multiple_books (.ok "x".data) (fun _ => .ok (.list [.num 1, .num 2]))
      = .ok ["1".data, "2".data] ∧
    suggest_multiple_movies (.ok "x".data) (fun _ => .ok (.list [.num 1, .num 2]))
      = .ok ["1".data, "2".data] :=
  ⟨((multi_title_parsing "x".data (fun _ => .ok (.list [.num 1, .num 2]))
      (fun _ => .ok (.list [.num 1, .num 2]))
      (.inr ⟨.list [.num 1, .num 2], rfl⟩) (.inr ⟨.list [.num 1, .num 2], rfl⟩)).1.2.1
      [.num 1, .num 2] rfl),
   ((multi_title_parsing "x".data (fun _ => .ok (.list [.num 1, .num 2]))
      (fun _ => .ok (.list [.num 1, .num 2]))
      (.inr ⟨.list [.num 1, .num 2], rfl⟩) (.inr ⟨.list [.num 1, .num 2], rfl⟩)).2.2.1
      [.num 1, .num 2] rfl)⟩

/-- The only exception `dict.get` can raise is `AttributeError`. -/
theorem dictGetD_error {v : JVal} {k : PyStr} {dflt : JVal} {e : PyErr}
    (h : dictGetD v k dflt = .error e) : e = .attributeError := by
  cases v <;> simp_all [dictGetD]

/-- String-key subscripting raises only `KeyError` or `TypeError`. -/
theorem getItemS_error {v : JVal} {k : PyStr} {e : PyErr}
    (h : getItemS v k = .error e) : e = .keyError ∨ e = .typeError := by
  cases v with
  | dict es =>
    unfold getItemS at h
    dsimp only at h
    cases hf : dictFind es k with
    | some x => rw [hf] at h; exact Except.noConfusion h
    | none => rw [hf] at h; exact Or.inl (Except.error.inj h).symm
  | null => exact Or.inr (Except.error.inj h).symm
  | bool b => exact Or.inr (Except.error.inj h).symm
  | num n => exact Or.inr (Except.error.inj h).symm
  | str s => exact Or.inr (Except.error.inj h).symm
  | list xs => exact Or.inr (Except.error.inj h).symm

/-- Integer-index subscripting raises only `IndexError`, `KeyError` (dict)
or `TypeError`. -/
theorem getItemI_error {v : JVal} {i : Nat} {e : PyErr}
    (h : getItemI v i = .error e) :
    e = .indexError ∨ e = .keyError ∨ e = .typeError := by
  cases v with
  | list xs =>
    unfold getItemI at h
    dsimp only at h
    cases hf : xs.get? i with
    | some x => rw [hf] at h; exact Except.noConfusion h
    | none => rw [hf] at h; exact Or.inl (Except.error.inj h).symm
  | str s =>
    unfold getItemI at h
    dsimp only at h
    cases hf : s.get? i with
    | some x => rw [hf] at h; exact Except.noConfusion h
    | none => rw [hf] at h; exact Or.inl (Except.error.inj h).symm
  | dict es => exact Or.inr (Or.inl (Except.error.inj h).symm)
  | null => exact Or.inr (Or.inr (Except.error.inj h).symm)
  | bool b => exact Or.inr (Or.inr (Except.error.inj h).symm)
  | num n => exact Or.inr (Or.inr (Except.error.inj h).symm)

/-- Claim C8 counterexample: a payload whose first item's `id` is not an
object makes `items[0]["id"]["videoId"]` raise `TypeError`, which is not
in the caught classes `(RequestException, KeyError, IndexError)` — the
error escapes to the caller instead of degrading to the sentinel. -/
theorem trailer_lookup_typeerror_escapes :
    get_trailer_url "T".data
        (.ok (.dict [("items".data, .list [.dict [("id".data, .num 5)]])]))
      = .error .typeError ∧
    (Except.error .typeError : Except PyErr PyStr) ≠ .ok "None".data := by
  exact ⟨rfl, by simp⟩

/-- Claim C8, amended: the trailer lookup returns either a watch URL built
from the first video result's identifier or the sentinel string `None`;
transport failures, empty result lists, missing keys and index errors all
yield the sentinel — but a payload that is malformed at type level (the
body or an item's `id` field not being an object) escapes as an uncaught
`TypeError`/`AttributeError` rather than yielding the sentinel. -/
theorem trailer_lookup_degrades (title : PyStr) (resp : Except PyErr JVal)
    (hresp : (∃ d, resp = .ok d) ∨ ∃ m, resp = .error (.requestException m)) :
    (∀ msg, get_trailer_url title (.error (.requestException msg)) = .ok "None".data) ∧
    (∀ data iv, resp = .ok data → dictGetD data "items".data (.list []) = .ok iv →
      truthy iv = false → get_trailer_url title resp = .ok "None".data) ∧
    (∀ data items i0 idv vid, resp = .ok data →
      dictGetD data "items".data (.list []) = .ok items → truthy items = true →
      getItemI items 0 = .ok i0 → getItemS i0 "id".data = .ok idv →
      getItemS idv "videoId".data = .ok vid →
      get_trailer_url title resp
        = .ok ("https://www.youtube.com/watch?v=".data ++ pyStrVal vid)) ∧
    (∀ e, get_trailer_url title resp = .error e → e = .typeError ∨ e = .attributeError) := by
  refine ⟨fun msg => rfl, fun data iv hre hd ht => ?_, ?_, ?_⟩
  · subst hre
    unfold get_trailer_url
    dsimp only [bind, Except.bind]
    rw [hd]
    dsimp only
    simp only [ht, Bool.false_eq_true, if_false]
    rfl
  · intro data items i0 idv vid hre hd ht h0 h1 h2
    subst hre
    unfold get_trailer_url
    dsimp only [bind, Except.bind]
    rw [hd]
    dsimp only
    simp only [ht, if_true]
    rw [h0]
    dsimp only
    rw [h1]
    dsimp only
    rw [h2]
    rfl
  · intro e h
    rcases hresp with ⟨data, rfl⟩ | ⟨m, rfl⟩
    · unfold get_trailer_url at h
      dsimp only [bind, Except.bind] at h
      cases hd : dictGetD data "items".data (.list []) with
      | error e1 =>
        rw [hd] at h
        have he1 := dictGetD_error hd
        subst he1
        dsimp only at h
        exact Or.inr (Except.error.inj h).symm
      | ok items =>
        rw [hd] at h
        dsimp only at h
        by_cases ht : truthy items
        · simp only [ht, if_true] at h
          cases h0 : getItemI items 0 with
          | error e2 =>
            rw [h0] at h
            rcases getItemI_error h0 with rfl | rfl | rfl
            · exact Except.noConfusion h
            · exact Except.noConfusion h
            · exact Or.inl (Except.error.inj h).symm
          | ok i0 =>
            rw [h0] at h
            dsimp only at h
            cases h1 : getItemS i0 "id".data with
            | error e3 =>
              rw [h1] at h
              rcases getItemS_error h1 with rfl | rfl
              · exact Except.noConfusion h
              · exact Or.inl (Except.error.inj h).symm
            | ok idv =>
              rw [h1] at h
              dsimp only at h
              cases h2 : getItemS idv "videoId".data with
              | error e4 =>
                rw [h2] at h
                rcases getItemS_error h2 with rfl | rfl
                · exact Except.noConfusion h
                · exact Or.inl (Except.error.inj h).symm
              | ok vid =>
                rw [h2] at h
                exact Except.noConfusion h
        · simp only [ht, if_false] at h
          exact Except.noConfusion h
    · exact Except.noConfusion h

/-- Witness for the amended C8: a well-formed payload yields the watch URL
built from the first result's video identifier. -/
theorem trailer_lookup_degrades_witness :
    get_trailer_url "T".data
        (.ok (.dict [("items".data,
          .list [.dict [("id".data, .dict [("videoId".data, .str "abc".data)])]])]))
      = .ok ("https://www.youtube.com/watch?v=".data ++ pyStrVal (.str "abc".data)) :=
  (trailer_lookup_degrades "T".data
      (.ok (.dict [("items".data,
        .list [.dict [("id".data, .dict [("videoId".data, .str "abc".data)])]])]))
      (Or.inl ⟨_, rfl⟩)).2.2.1
    (.dict [("items".data,
      .list [.dict [("id".data, .dict [("videoId".data, .str "abc".data)])]])])
    (.list [.dict [("id".data, .dict [("videoId".data, .str "abc".data)])]])
    (.dict [("id".data, .dict [("videoId".data, .str "abc".data)])])
    (.dict [("videoId".data, .str "abc".data)]) (.str "abc".data)
    rfl rfl rfl rfl rfl rfl

/-- A catalog response with one result whose volume lists an explicitly
empty `authors` array. -/
def c9Resp : JVal :=
  .dict [("totalItems".data, .num 1),
         ("items".data, .list [.dict [("volumeInfo".data,
           .dict [("authors".data, .list [])])]])]

/-- Claim C9 counterexample: on a response with at least one result whose
`authors` field is present but empty, `["Unknown Author"][0]` is never
reached — the code indexes the empty list, the `IndexError` is caught, and
the resolver raises `ExternalAPIError` instead of returning a record with
the fallback author. -/
theorem book_details_empty_authors_counterexample :
    get_book_details "T".data (.ok c9Resp)
      = .error (.externalAPIError "Google Books" "Invalid response format".data) ∧
    ∀ r : Option BookDetails, get_book_details "T".data (.ok c9Resp) ≠ .ok r := by
  have h0 : get_book_details "T".data (.ok c9Resp)
      = .error (.externalAPIError "Google Books" "Invalid response format".data) := rfl
  refine ⟨h0, fun r h => ?_⟩
  rw [h0] at h
  exact Except.noConfusion h

/-- Claim C9, amended: on a response with at least one result, the
resolver returns, without error, a record whose author is the first listed
author, or `Unknown Author` when the `authors` field is absent (an
explicitly empty `authors` list instead raises `ExternalAPIError`); whose
cover image URL is the thumbnail when present and non-empty, else the
placeholder asset; and whose preview URL is the `previewLink`, defaulting
to the empty string. -/
theorem book_details_fallbacks (title : PyStr) (d bd vi il : List (PyStr × JVal))
    (authorv : JVal) (rest : List JVal)
    (h0 : pyEqInt ((dictFind d "totalItems".data).getD (.num 0)) 0 = false)
    (h1 : dictFind d "items".data = some (.list (.dict bd :: rest)))
    (h2 : (dictFind bd "volumeInfo".data).getD (.dict []) = .dict vi)
    (h3 : (dictFind vi "authors".data = none ∧ authorv = .str "Unknown Author".data) ∨
          ∃ a as, dictFind vi "authors".data = some (.list (a :: as)) ∧ authorv = a)
    (h4 : (dictFind vi "imageLinks".data).getD (.dict []) = .dict il) :
    get_book_details title (.ok (.dict d))
      = .ok (some ⟨title, authorv,
          (if truthy ((dictFind il "thumbnail".data).getD .null)
            then (dictFind il "thumbnail".data).getD .null
            else .str "assets/images/image-err.png".data),
          (dictFind vi "previewLink".data).getD (.str [])⟩) := by
  have h0h := h0
  have h1h := h1
  have h2h := h2
  have h4h := h4
  unfold get_book_details
  dsimp only [bind, Except.bind, dictGetD, getItemS]
  dsimp only at h0h h1h h2h h4h
  rw [h0h]
  simp only [Bool.false_eq_true, if_false]
  rw [h1h]
  dsimp only [getItemI, List.get?]
  rw [h2h]
  dsimp only
  rcases h3 with ⟨ha, rfl⟩ | ⟨a, as, ha, rfl⟩ <;>
    dsimp only at ha <;> rw [ha, h4h] <;> rfl

/-- Witness for the amended C9: a result with no `authors` field, no
`imageLinks` and a `previewLink` resolves to the fallback author, the
placeholder cover and the given preview link. -/
theorem book_details_fallbacks_witness :
    get_book_details "T".data
        (.ok (.dict [("totalItems".data, .num 2),
          ("items".data, .list [.dict [("volumeInfo".data,
            .dict [("previewLink".data, .str "p".data)])]])]))
      = .ok (some ⟨"T".data, .str "Unknown Author".data,
          .str "assets/images/image-err.png".data, .str "p".data⟩) :=
  book_details_fallbacks "T".data
    [("totalItems".data, .num 2),
     ("items".data, .list [.dict [("volumeInfo".data,
       .dict [("previewLink".data, .str "p".data)])]])]
    [("volumeInfo".data, .dict [("previewLink".data, .str "p".data)])]
    [("previewLink".data, .str "p".data)] []
    (.str "Unknown Author".data) []
    rfl rfl rfl (Or.inl ⟨rfl, rfl⟩) rfl

/-- The id attached to a record in a suggest-many response. -/
def recId (v : JVal) : Option JVal :=
  match getItemS v "id".data with
  | .ok x => some x
  | .error _ => none

/-- The ids of a suggest-many response payload, when one was produced. -/
def respIds (r : Resp (List JVal)) : Option (List (Option JVal)) :=
  match r with
  | .ok ms => some (ms.map recId)
  | _ => none

/-- The number of records in a suggest-many response payload. -/
def respCount (r : Resp (List JVal)) : Option Nat :=
  match r with
  | .ok ms => some ms.length
  | _ => none

/-- Declarative reading of the movies suggest-many loop when every title
resolves independently of the genre-cache state to the outcome `dt`:
the surviving records in list order, each being its resolved dict with
`id` set to the title's position counting from `idx`. -/
def survivorsFrom (dt : PyStr → Except PyErr JVal) (idx : Int) : List PyStr → List JVal
  | [] => []
  | t :: ts =>
    match dt t with
    | .ok (.dict es) => .dict (dictSet es "id".data (.num idx)) :: survivorsFrom dt (idx + 1) ts
    | _ => survivorsFrom dt (idx + 1) ts

/-- Unfolding of `survivorsFrom` at a cons cell. -/
theorem survivorsFrom_cons (dt : PyStr → Except PyErr JVal) (idx : Int)
    (t : PyStr) (ts : List PyStr) :
    survivorsFrom dt idx (t :: ts) =
      match dt t with
      | .ok (.dict es) =>
        .dict (dictSet es "id".data (.num idx)) :: survivorsFrom dt (idx + 1) ts
      | _ => survivorsFrom dt (idx + 1) ts := rfl

/-- The movies suggest-many loop produces exactly the surviving records in
processing order, with `id` equal to the title's `enumerate` position —
whatever the genre-cache state. -/
theorem moviesLoop_eq_survivors (movieResp trailerResp : PyStr → Except PyErr JVal)
    (genreResp : Except PyErr JVal) (dt : PyStr → Except PyErr JVal)
    (hdt : ∀ c t, (get_movie_details t c (movieResp t) genreResp (trailerResp t)).2 = dt t)
    (hshape : ∀ t, (∃ es, dt t = .ok (.dict es)) ∨ ∃ s m, dt t = .error (.externalAPIError s m)) :
    ∀ (titles : List PyStr) (cache : Option GenreAssoc) (idx : Int),
      (moviesLoop movieResp trailerResp genreResp cache idx titles).2.1
        = .ok (survivorsFrom dt idx titles) := by
  intro titles
  induction titles with
  | nil => intro cache idx; rfl
  | cons t ts ih =>
    intro cache idx
    unfold moviesLoop
    rcases hgd : get_movie_details t cache (movieResp t) genreResp (trailerResp t)
      with ⟨c1, r1⟩
    have hr1 : r1 = dt t := by
      have h := hdt cache t
      rw [hgd] at h
      exact h
    rcases hshape t with ⟨es, hes⟩ | ⟨s, m, hsm⟩
    · rw [hr1, hes]
      dsimp only [setItemS]
      rcases hrec : moviesLoop movieResp trailerResp genreResp c1 (idx + 1) ts
        with ⟨c2, r2, n⟩
      have h2 := ih c1 (idx + 1)
      rw [hrec] at h2
      dsimp only at h2
      rw [h2]
      dsimp only
      rw [survivorsFrom_cons, hes]
    · rw [hr1, hsm]
      dsimp only
      rcases hrec : moviesLoop movieResp trailerResp genreResp c1 (idx + 1) ts
        with ⟨c2, r2, n⟩
      have h2 := ih c1 (idx + 1)
      rw [hrec] at h2
      dsimp only at h2
      rw [h2]
      dsimp only
      rw [survivorsFrom_cons, hsm]

/-- Claim C1, amended: when the completion client yields titles and each
title's resolution (independently of the genre-cache state) either yields
a record dict or fails with `ExternalAPIError`, the suggest-many response
is exactly the surviving records in processing order — but each `id` is
the title's original 1-based position in the suggested list (`enumerate`
runs before the failure filter), so after a failure the ids are increasing
yet not consecutive, not a renumbered `1..n`. -/
theorem movie_ids_keep_original_positions (q : PyStr)
    (chatOut : PyStr → Except PyErr PyStr) (evalOut : PyStr → Except PyErr JVal)
    (cache : Option GenreAssoc) (movieResp trailerResp : PyStr → Except PyErr JVal)
    (genreResp : Except PyErr JVal) (titles : List PyStr)
    (dt : PyStr → Except PyErr JVal)
    (hq : ¬ q.length < 3)
    (hchat : suggest_multiple_movies (chatOut (pyStrip q)) evalOut = .ok titles)
    (hdt : ∀ c t, (get_movie_details t c (movieResp t) genreResp (trailerResp t)).2 = dt t)
    (hshape : ∀ t, (∃ es, dt t = .ok (.dict es)) ∨ ∃ s m, dt t = .error (.externalAPIError s m))
    (hne : titles ≠ [])
    (hsurv : survivorsFrom dt 1 titles ≠ []) :
    (movies_suggest_many q chatOut evalOut cache movieResp trailerResp genreResp).1.resp
      = .ok (survivorsFrom dt 1 titles) := by
  unfold movies_suggest_many
  rw [if_neg hq]
  dsimp only
  rw [hchat]
  have hte : titles.isEmpty = false := by
    cases titles with
    | nil => exact absurd rfl hne
    | cons a l => rfl
  simp only [hte, Bool.false_eq_true, if_false]
  rcases hrec : moviesLoop movieResp trailerResp genreResp cache 1 titles with ⟨c, r, n⟩
  have h2 := moviesLoop_eq_survivors movieResp trailerResp genreResp dt hdt hshape
    titles cache 1
  rw [hrec] at h2
  dsimp only at h2
  rw [h2]
  have hse : (survivorsFrom dt 1 titles).isEmpty = false := by
    cases hs : survivorsFrom dt 1 titles with
    | nil => exact absurd hs hsurv
    | cons a l => rfl
  simp only [hse, Bool.false_eq_true, if_false]

/-- Completion outcome for the C1 runs. -/
def c1Chat : PyStr → Except PyErr PyStr := fun _ => .ok "ok".data

/-- Parsed title list for the C1 runs: `["A", "B", "C"]`. -/
def c1Eval : PyStr → Except PyErr JVal :=
  fun _ => .ok (.list [.str "A".data, .str "B".data, .str "C".data])

/-- Movie-search outcomes for the C1 runs: catalog resolution fails (at
transport level) exactly for title `B`, the second of three. -/
def c1MovieResp : PyStr → Except PyErr JVal := fun t =>
  if t = "B".data then .error (.requestException "boom")
  else .ok (.dict [("results".data, .list [.dict [("title".data, .str t)]])])

/-- Trailer-search outcomes for the C1 runs: no items, so the sentinel. -/
def c1Trailer : PyStr → Except PyErr JVal := fun _ => .ok (.dict [])

/-- Genre-list outcome for the C1 runs: an empty genre list. -/
def c1GenreResp : Except PyErr JVal := .ok (.dict [])

/-- The per-title resolution outcome of the C1 runs. -/
def c1Dt : PyStr → Except PyErr JVal := fun t =>
  if t = "B".data then .error (.externalAPIError "TMDB" "boom".data)
  else .ok (.dict [("title".data, .str t), ("poster_url".data, .null),
    ("genre_names".data, .list []), ("trailer_url".data, .str "None".data)])

/-- Claim C1 counterexample: with suggested titles `["A","B","C"]` and
catalog resolution failing for title 2 of 3, the response has 2 records
but their `id` fields are `1, 3` — the original positions — not the
renumbered consecutive `1, 2` the claim states. -/
theorem movie_ids_not_renumbered :
    respIds (movies_suggest_many "abc".data c1Chat c1Eval none c1MovieResp c1Trailer
        c1GenreResp).1.resp
      = some [some (.num 1), some (.num 3)] ∧
    respCount (movies_suggest_many "abc".data c1Chat c1Eval none c1MovieResp c1Trailer
        c1GenreResp).1.resp
      = some 2 ∧
    ¬ respIds (movies_suggest_many "abc".data c1Chat c1Eval none c1MovieResp c1Trailer
        c1GenreResp).1.resp
      = some [some (.num 1), some (.num 2)] := by
  have h13 : respIds (movies_suggest_many "abc".data c1Chat c1Eval none c1MovieResp c1Trailer
      c1GenreResp).1.resp = some [some (.num 1), some (.num 3)] := rfl
  refine ⟨h13, rfl, fun h => ?_⟩
  rw [h13] at h
  simp at h

/-- Witness for the amended C1: the concrete fail-the-second-of-three run
matches the surviving-records-with-original-positions characterisation. -/
theorem movie_ids_keep_original_positions_witness :
    (movies_suggest_many "abc".data c1Chat c1Eval none c1MovieResp c1Trailer
        c1GenreResp).1.resp
      = .ok (survivorsFrom c1Dt 1 ["A".data, "B".data, "C".data]) :=
  movie_ids_keep_original_positions "abc".data c1Chat c1Eval none c1MovieResp c1Trailer
    c1GenreResp ["A".data, "B".data, "C".data] c1Dt
    (by decide) rfl
    (fun c t => by
      by_cases h : t = "B".data
      · subst h; rfl
      · show (get_movie_details t c (c1MovieResp t) c1GenreResp (c1Trailer t)).2 = c1Dt t
        unfold c1MovieResp c1Dt
        rw [if_neg h, if_neg h]
        rfl)
    (fun t => by
      by_cases h : t = "B".data
      · exact Or.inr ⟨"TMDB", "boom".data, by simp [c1Dt, h]⟩
      · exact Or.inl ⟨[("title".data, .str t), ("poster_url".data, .null),
          ("genre_names".data, .list []), ("trailer_url".data, .str "None".data)],
          by unfold c1Dt; rw [if_neg h]⟩)
    (by decide)
    (fun h => absurd (congrArg List.length h) (by decide))

end RecBackend
